import Mathlib

/-!
# Verification of the chaos-agent core (src/backend/chaos_agent.py, docker_functions.py)

A shallow embedding of the pure/decision logic of the chaos agent:
target eligibility (`is_monitoring_container`, `check_target`), the
eligibility guard (`require_valid_target`), runtime-command result
construction (`_run`, `_run_docker`), size-string parsing
(`_parse_size_to_bytes`), resource-update command construction
(`update_resources`), target selection (`pick_targets`) and the
statistics aggregator (`Stats.add` / `Stats.summary`).

Modelling conventions:
- Python floats are modelled as exact rationals (`ℚ`); `round` is
  modelled as exact round-half-to-even on the rational value.
- The container runtime's state is an explicit `ContainerEnv` value
  (the list of containers with their running flags); functions that in
  the source call `docker ps` take the environment as an argument.
- The outcome of spawning an external process is an explicit
  `ProcOutcome` argument; `_run` / `_run_docker` are total functions of
  that outcome, which models "never raises" by construction.
- Python dicts used as counters are association lists preserving
  insertion order; Python sets are lists considered up to membership.
-/

namespace ChaosAgent

/-! ## Python string primitives -/

/-- The ASCII whitespace characters recognised by Python's `str.strip`
and the regex class `\s` (unicode whitespace beyond ASCII is not
modelled; no input in this development contains any). -/
def pyWs (c : Char) : Bool :=
  c = ' ' || c = '\t' || c = '\n' || c = '\r' || c = Char.ofNat 11 || c = Char.ofNat 12

/-- Python `str.strip()` on a character list. -/
def pyStrip (cs : List Char) : List Char :=
  ((cs.dropWhile pyWs).reverse.dropWhile pyWs).reverse

/-- Python `str.strip()` on a string. -/
def pyStripS (s : String) : String :=
  String.mk (pyStrip s.data)

/-- Python `str.lower()` (ASCII; no input here is beyond ASCII). -/
def lowerS (s : String) : String :=
  String.mk (s.data.map Char.toLower)

/-- Python `str.startswith(p)`. -/
def startsWithS (p s : String) : Bool :=
  List.isPrefixOf p.data s.data

/-! ## Container environment (the runtime's view, an explicit input) -/

/-- One container as reported by the runtime: its `Names` field and
whether it is currently running (`docker ps` without `-a` lists only
running containers; with `-a` it lists all). -/
structure DockerContainer where
  names : String
  running : Bool
deriving DecidableEq

/-- The container runtime's full inventory. -/
structure ContainerEnv where
  containers : List DockerContainer
deriving DecidableEq

/-- `is_running_container`: scans `list_containers(all=False)` for a
container whose `Names` equals `name`. -/
def is_running_container (env : ContainerEnv) (name : String) : Bool :=
  (env.containers.filter (fun c => c.running)).any (fun c => c.names = name)

/-- `container_exists`: scans `list_containers(all=True)` for a
container whose `Names` equals `name`. -/
def container_exists (env : ContainerEnv) (name : String) : Bool :=
  env.containers.any (fun c => c.names = name)

/-! ## Target eligibility -/

/-- The fixed set `MONITORING_EXCLUDES` from the source. -/
def MONITORING_EXCLUDES : List String :=
  ["testapp_prometheus", "testapp_grafana", "prometheus", "grafana",
   "jaeger", "zipkin", "loki", "tempo", "otel-collector"]

/-- The fixed set `MONITORING_PREFIXES` from the source. -/
def MONITORING_PREFIXES : List String :=
  ["prometheus", "grafana", "otel", "loki", "tempo", "zipkin", "jaeger"]

/-- `is_monitoring_container`: lowercases the name, then checks set
membership and then the known infrastructure name beginnings. -/
def is_monitoring_container (name : String) : Bool :=
  let n := lowerS name
  if MONITORING_EXCLUDES.any (fun e => e = n) then true
  else MONITORING_PREFIXES.any (fun p => startsWithS p n)

/-- `Monitor.check_target`: eligibility decision, first failing check
wins. -/
def check_target (env : ContainerEnv) (name : String) : Bool × Option String :=
  if is_monitoring_container name then
    (false, some "target excluded (monitoring container)")
  else if !container_exists env name then
    (false, some "target not found")
  else if !is_running_container env name then
    (false, some "target not running")
  else
    (true, none)

/-! ## Action results and the eligibility guard -/

/-- The result dictionary of a fault action: an optional `error` entry
plus the action-specific rest of the payload. -/
structure ActionResult where
  error : Option String
  payload : List (String × String)
deriving DecidableEq

/-- The dictionary literally written as `{"error": reason}`. -/
def error_result (reason : String) : ActionResult :=
  ⟨some reason, []⟩

/-- `require_valid_target(monitor)(fn)`: checks eligibility first; on
failure returns `{"error": reason or "invalid target"}` (Python `or`
replaces a null or empty reason) without calling `fn`; on success
returns `fn(name)`.  The log write performed on the failure path is a
side effect outside the embedded state and is not modelled. -/
def require_valid_target (env : ContainerEnv) (fn : String → ActionResult)
    (name : String) : ActionResult :=
  match check_target env name with
  | (true, _) => fn name
  | (false, reason) =>
      error_result (match reason with
        | some s => if s = "" then "invalid target" else s
        | none => "invalid target")

/-! ## Target selection -/

/-- The name set built at the top of `pick_targets`: the `Names` of the
running containers, with falsy (empty) names dropped by the
comprehension's filter.  The Python set is modelled as a list
considered up to membership. -/
def running_names (env : ContainerEnv) : List String :=
  ((env.containers.filter (fun c => c.running)).map
      (fun c => c.names)).filter (fun n => n ≠ "")

/-- `pick_targets`: the running containers' names, restricted to the
configured list when one is given, with infrastructure containers
removed. -/
def pick_targets (env : ContainerEnv) (configured : List String) : List String :=
  let names := running_names env
  let base := if configured.isEmpty then names
    else configured.filter (fun n => names.any (fun m => m = n))
  base.filter (fun n => !is_monitoring_container n)

/-! ## Runtime command invocation -/

/-- The outcome of spawning one external process, supplied by the
environment: either the process completed with captured output and an
exit code, or spawning/waiting raised (missing binary, timeout, other
exception, each carrying the exception's message). -/
inductive ProcOutcome where
  | completed (stdout stderr : String) (rc : Int)
  | fileNotFound (msg : String)
  | timedOut (msg : String)
  | otherFailure (msg : String)
deriving DecidableEq

/-- The structured result dictionary every runtime call returns. -/
structure RunResult where
  cmd : String
  stdout : Option String
  stderr : Option String
  rc : Int
  error : Option String
deriving DecidableEq

/-- `" ".join(cmd)`. -/
def joinCmd (cmd : List String) : String :=
  String.intercalate " " cmd

/-- `_run` from `chaos_agent.py`: on completion, `error` is null
exactly for exit code 0 and otherwise the stripped stderr or the
`exit <rc>` fallback; every exception is caught and stringified. -/
def _run (cmd : List String) (oc : ProcOutcome) : RunResult :=
  match oc with
  | .completed out err rc =>
      { cmd := joinCmd cmd, stdout := some (pyStripS out),
        stderr := some (pyStripS err), rc := rc,
        error := if rc = 0 then none
          else some (if pyStripS err = "" then "exit " ++ toString rc
            else pyStripS err) }
  | .fileNotFound m =>
      { cmd := joinCmd cmd, stdout := some "", stderr := some "", rc := -1,
        error := some m }
  | .timedOut m =>
      { cmd := joinCmd cmd, stdout := some "", stderr := some "", rc := -1,
        error := some m }
  | .otherFailure m =>
      { cmd := joinCmd cmd, stdout := some "", stderr := some "", rc := -1,
        error := some m }

/-- `_run_docker` from `docker_functions.py`: same contract with
dedicated messages per exception class (`Docker not found: …`,
`Timeout`, `Unexpected error: …`) and null stdout/stderr on the
exception paths. -/
def _run_docker (args : List String) (oc : ProcOutcome) : RunResult :=
  let cmd := "docker" :: args
  match oc with
  | .completed out err rc =>
      { cmd := joinCmd cmd, stdout := some (pyStripS out),
        stderr := some (pyStripS err), rc := rc,
        error := if rc = 0 then none
          else some (if pyStripS err = "" then "Non-zero exit " ++ toString rc
            else pyStripS err) }
  | .fileNotFound m =>
      { cmd := joinCmd cmd, stdout := none, stderr := none, rc := -1,
        error := some ("Docker not found: " ++ m) }
  | .timedOut _ =>
      { cmd := joinCmd cmd, stdout := none, stderr := none, rc := -1,
        error := some "Timeout" }
  | .otherFailure m =>
      { cmd := joinCmd cmd, stdout := none, stderr := none, rc := -1,
        error := some ("Unexpected error: " ++ m) }

/-! ## Exact rational models of Python numeric primitives -/

/-- Floor of a rational as an integer (`den` is always positive). -/
def ratFloor (q : ℚ) : Int :=
  Int.fdiv q.num q.den

/-- Python `int()` applied to a float: truncation toward zero. -/
def pyTrunc (q : ℚ) : Int :=
  if q < 0 then -(ratFloor (-q)) else ratFloor q

/-- Python's `round` to zero decimals: round half to even, exact on the
rational model of the float. -/
def roundHalfEven (q : ℚ) : Int :=
  let f := ratFloor q
  let r := q - (f : ℚ)
  if r < 1/2 then f
  else if r = 1/2 then (if f % 2 = 0 then f else f + 1)
  else f + 1

/-- Python's `round(x, n)` for `n ≥ 0`. -/
def pyRound (q : ℚ) (n : ℕ) : ℚ :=
  (roundHalfEven (q * 10 ^ n) : ℚ) / 10 ^ n

/-! ## Resource updates -/

/-- The argument list built by `update_resources` (the function then
hands it to `_run`; the claims are about the command built). -/
def update_resources_args (name : String) (cpu_percent : Option Int)
    (mem_limit_mb : Option Int) : List String :=
  let args := ["docker", "update"]
  let args := args ++ (match cpu_percent with
    | some p =>
        let period : Int := 100000
        let quota : Int := max 1 (pyTrunc ((period : ℚ) * (p : ℚ) / 100))
        ["--cpu-period", toString period, "--cpu-quota", toString quota]
    | none => [])
  let args := args ++ (match mem_limit_mb with
    | some m => ["--memory", toString m ++ "m"]
    | none => [])
  args ++ [name]

/-! ## Size-string parsing

`_parse_size_to_bytes` anchors the regex
`([0-9]*\.?[0-9]+)\s*([KMGTP]?i?B)` (case-insensitive) at the start of
the stripped input with `re.match`, so a match is a *prefix* match and
trailing characters are ignored.  The regex's backtracking is
equivalent to maximal munch here: after any shorter number match the
next character is a digit or a dot, and neither can begin `\s*` +
unit, so only the greedy decomposition can complete. -/

/-- Value of a run of decimal digit characters. -/
def digitsToNat (ds : List Char) : ℕ :=
  ds.foldl (fun a c => 10 * a + (c.toNat - 48)) 0

/-- The number group `[0-9]*\.?[0-9]+`, matched greedily at the head of
the input; returns the value (exact rational, as `float()` of the
matched text) and the unconsumed rest. -/
def parseNumber (cs : List Char) : Option (ℚ × List Char) :=
  let ds := cs.takeWhile Char.isDigit
  let r1 := cs.dropWhile Char.isDigit
  match r1 with
  | c :: r2 =>
      if c = '.' then
        let fs := r2.takeWhile Char.isDigit
        if fs.isEmpty then
          if ds.isEmpty then none else some ((digitsToNat ds : ℚ), r1)
        else
          some ((digitsToNat ds : ℚ) + (digitsToNat fs : ℚ) / 10 ^ fs.length,
            r2.dropWhile Char.isDigit)
      else if ds.isEmpty then none else some ((digitsToNat ds : ℚ), r1)
  | [] => if ds.isEmpty then none else some ((digitsToNat ds : ℚ), r1)

/-- The unit group `[KMGTP]?i?B`, case-insensitive, matched at the head
of the input; returns the uppercased matched text (`m.group(2).upper()`). -/
def parseUnit (cs : List Char) : Option String :=
  match cs with
  | [] => none
  | c :: rest =>
      let cu := c.toUpper
      if cu = 'K' || cu = 'M' || cu = 'G' || cu = 'T' || cu = 'P' then
        match rest with
        | c2 :: rest2 =>
            if c2.toUpper = 'I' then
              match rest2 with
              | c3 :: _ => if c3.toUpper = 'B' then
                  some (String.mk [cu, 'I', 'B']) else none
              | [] => none
            else if c2.toUpper = 'B' then some (String.mk [cu, 'B'])
            else none
        | [] => none
      else if cu = 'I' then
        match rest with
        | c2 :: _ => if c2.toUpper = 'B' then some "IB" else none
        | [] => none
      else if cu = 'B' then some "B"
      else none

/-- The unit multiplier table; units matched by the regex but absent
from the table (IB, PB, PIB) fall back to 1 via `.get(unit, 1)`. -/
def unitMult (u : String) : ℚ :=
  if u = "B" then 1
  else if u = "KB" then 1000
  else if u = "KIB" then 1024
  else if u = "MB" then 1000 ^ 2
  else if u = "MIB" then 1024 ^ 2
  else if u = "GB" then 1000 ^ 3
  else if u = "GIB" then 1024 ^ 3
  else if u = "TB" then 1000 ^ 4
  else if u = "TIB" then 1024 ^ 4
  else 1

/-- `_parse_size_to_bytes`: strip, match number then optional
whitespace then unit, multiply. -/
def _parse_size_to_bytes (s : String) : Option ℚ :=
  let cs := pyStrip s.data
  match parseNumber cs with
  | none => none
  | some (v, rest) =>
      match parseUnit (rest.dropWhile pyWs) with
      | none => none
      | some u => some (v * unitMult u)

/-! Claim-side characterisations of the number group. -/

/-- A character list is exactly one number token of the regex's number
group: `digits+` or `digits* '.' digits+`. -/
def isNumTok (cs : List Char) : Bool :=
  match cs.dropWhile Char.isDigit with
  | [] => !(cs.takeWhile Char.isDigit).isEmpty
  | c :: r2 => c = '.' && (!r2.isEmpty && r2.all Char.isDigit)

/-- Decimal value of a number token (what Python's `float()` returns on
it, exactly). -/
def numVal (tok : List Char) : ℚ :=
  match tok.dropWhile Char.isDigit with
  | c :: r2 =>
      if c = '.' then
        (digitsToNat (tok.takeWhile Char.isDigit) : ℚ) +
          (digitsToNat r2 : ℚ) / 10 ^ r2.length
      else (digitsToNat (tok.takeWhile Char.isDigit) : ℚ)
  | [] => (digitsToNat (tok.takeWhile Char.isDigit) : ℚ)

/-- The nine unit spellings named by the specification. -/
def specUnits : List String :=
  ["B", "KB", "KiB", "MB", "MiB", "GB", "GiB", "TB", "TiB"]

/-- A string is exactly of the form `<number><unit>` with a unit from
the specification's table: some split point separates a number token
from one of the nine unit spellings. -/
def isExactSizeForm (s : String) : Bool :=
  (List.range (s.data.length + 1)).any (fun i =>
    isNumTok (s.data.take i) && specUnits.any (fun u => s.data.drop i = u.data))

/-- A character list has a prefix matched by the full regex: a number
token, optional whitespace, then a unit group token. -/
def hasSizePrefix (cs : List Char) : Bool :=
  (List.range (cs.length + 1)).any (fun i =>
    isNumTok (cs.take i) && (parseUnit ((cs.drop i).dropWhile pyWs)).isSome)

/-! ## Statistics aggregation -/

/-- `dict.get(k, 0)` on a counter dict modelled as an association
list. -/
def getCount (l : List (String × ℕ)) (k : String) : ℕ :=
  match l with
  | [] => 0
  | (k', v) :: rest => if k' = k then v else getCount rest k

/-- `d[k] = d.get(k, 0) + 1` on an insertion-ordered dict. -/
def bump (l : List (String × ℕ)) (k : String) : List (String × ℕ) :=
  match l with
  | [] => [(k, 1)]
  | (k', v) :: rest => if k' = k then (k', v + 1) :: rest
      else (k', v) :: bump rest k

/-- The `Stats` object's fields (floats as exact rationals). -/
structure Stats where
  total : ℕ
  errors : ℕ
  by_action : List (String × ℕ)
  by_target : List (String × ℕ)
  lat_before : List ℚ
  lat_after : List ℚ
  fail_before : ℕ
  fail_after : ℕ
  prom_series : List (String × (List ℚ × List ℚ))
  up_before_vals : List ℚ
  up_after_vals : List ℚ
  up_missing_before : ℕ
  up_missing_after : ℕ
  docker_cpu_before : List ℚ
  docker_cpu_after : List ℚ
  docker_mem_before : List ℚ
  docker_mem_after : List ℚ
deriving DecidableEq

/-- `Stats.__init__`. -/
def Stats.init : Stats :=
  ⟨0, 0, [], [], [], [], 0, 0, [], [], [], 0, 0, [], [], [], []⟩

/-- `Stats.add(action, target, ok)`. -/
def Stats.add (st : Stats) (action target : String) (ok : Bool) : Stats :=
  { st with
    total := st.total + 1,
    errors := st.errors + (if ok then 0 else 1),
    by_action := bump st.by_action action,
    by_target := bump st.by_target target }

/-- How the orchestration loop derives `ok` from an action result
(`ok = not bool(event["result"].get("error"))`): a missing *or empty*
error string counts as success. -/
def result_ok (r : ActionResult) : Bool :=
  match r.error with
  | none => true
  | some s => s = ""

/-- One recorded action: the loop's `stats.add(action, target, ok)`
with `ok` derived from the result. -/
def record_result (st : Stats) (action target : String) (r : ActionResult) :
    Stats :=
  st.add action target (result_ok r)

/-- `sum(list)/len(list) if list else None`. -/
def avgQ (l : List ℚ) : Option ℚ :=
  if l.isEmpty then none else some (l.sum / (l.length : ℚ))

/-- `round(x, n)` mapped over an optional average. -/
def roundOpt (n : ℕ) (x : Option ℚ) : Option ℚ :=
  x.map (fun v => pyRound v n)

/-- The percent-delta computation shared by every before/after pair in
`Stats.summary`: defined only when both averages exist and the before
average is non-zero, and rounded to two decimals. -/
def deltaPct (b a : Option ℚ) : Option ℚ :=
  match b, a with
  | some bv, some av => if bv ≠ 0 then some (pyRound ((av - bv) / bv * 100) 2)
      else none
  | _, _ => none

/-- One `{avg_before, avg_after, delta_pct}` block of the summary. -/
structure DeltaEntry where
  avg_before : Option ℚ
  avg_after : Option ℚ
  delta_pct : Option ℚ
deriving DecidableEq

/-- The summary dictionary returned by `Stats.summary`. -/
structure Summary where
  total_actions : ℕ
  errors : ℕ
  error_pct : ℚ
  by_action : List (String × ℕ)
  by_target : List (String × ℕ)
  avg_latency_ms_before : Option ℚ
  avg_latency_ms_after : Option ℚ
  failed_probes_before : ℕ
  failed_probes_after : ℕ
  prom : List (String × DeltaEntry)
  uptime : DeltaEntry
  up_missing_before : ℕ
  up_missing_after : ℕ
  docker_cpu_pct : DeltaEntry
  docker_mem_used_bytes : DeltaEntry
deriving DecidableEq

/-- `Stats.summary`: averages with their per-field rounding precisions
(latency 2, metric 6, uptime 6, cpu 3, memory 1 decimals), percent
deltas computed from the unrounded averages and rounded to 2 decimals,
error rate `errors/total*100` (0 when `total` is 0) rounded to 2. -/
def Stats.summary (st : Stats) : Summary :=
  let avg_before := avgQ st.lat_before
  let avg_after := avgQ st.lat_after
  let pct_errors : ℚ := if st.total ≠ 0 then (st.errors : ℚ) / (st.total : ℚ) * 100 else 0
  let prom := st.prom_series.map (fun e =>
    let b_avg := avgQ e.2.1
    let a_avg := avgQ e.2.2
    (e.1, DeltaEntry.mk (roundOpt 6 b_avg) (roundOpt 6 a_avg) (deltaPct b_avg a_avg)))
  let up_b := avgQ st.up_before_vals
  let up_a := avgQ st.up_after_vals
  let cpu_b := avgQ st.docker_cpu_before
  let cpu_a := avgQ st.docker_cpu_after
  let mem_b := avgQ st.docker_mem_before
  let mem_a := avgQ st.docker_mem_after
  { total_actions := st.total,
    errors := st.errors,
    error_pct := pyRound pct_errors 2,
    by_action := st.by_action,
    by_target := st.by_target,
    avg_latency_ms_before := roundOpt 2 avg_before,
    avg_latency_ms_after := roundOpt 2 avg_after,
    failed_probes_before := st.fail_before,
    failed_probes_after := st.fail_after,
    prom := prom,
    uptime := DeltaEntry.mk (roundOpt 6 up_b) (roundOpt 6 up_a) (deltaPct up_b up_a),
    up_missing_before := st.up_missing_before,
    up_missing_after := st.up_missing_after,
    docker_cpu_pct := DeltaEntry.mk (roundOpt 3 cpu_b) (roundOpt 3 cpu_a) (deltaPct cpu_b cpu_a),
    docker_mem_used_bytes := DeltaEntry.mk (roundOpt 1 mem_b) (roundOpt 1 mem_a) (deltaPct mem_b mem_a) }

/-- Replaying a sequence of `add` calls. -/
def applyAdds (st : Stats) : List (String × String × Bool) → Stats
  | [] => st
  | (a, t, ok) :: rest => applyAdds (st.add a t ok) rest

/-- Sum of all counter values of a counter dict. -/
def sumCounts (l : List (String × ℕ)) : ℕ :=
  (l.map (fun e => e.2)).sum

/-! ## Helper lemmas -/

/-- `ratFloor` is the mathematical floor. -/
lemma ratFloor_eq (q : ℚ) : ratFloor q = ⌊q⌋ := by
  rw [Rat.floor_def]
  exact Int.fdiv_eq_ediv q.num (Int.ofNat_nonneg q.den)

/-- Dropping while the head never satisfies the predicate is the
identity. -/
lemma dropWhile_eq_self_of_head {p : Char → Bool} {l : List Char}
    (h : ∀ c, l.head? = some c → p c = false) : l.dropWhile p = l := by
  cases l with
  | nil => rfl
  | cons c cs => simp [List.dropWhile_cons, h c rfl]

/-- Stripping a list with no whitespace anywhere is the identity. -/
lemma pyStrip_eq_self {l : List Char} (h : ∀ c ∈ l, pyWs c = false) :
    pyStrip l = l := by
  unfold pyStrip
  have h1 : l.dropWhile pyWs = l :=
    dropWhile_eq_self_of_head (fun c hc => h c (List.mem_of_mem_head? hc))
  have h2 : l.reverse.dropWhile pyWs = l.reverse :=
    dropWhile_eq_self_of_head (fun c hc =>
      h c (List.mem_reverse.1 (List.mem_of_mem_head? hc)))
  rw [h1, h2, List.reverse_reverse]

/-- A digit character is not whitespace. -/
lemma digit_not_ws {c : Char} (h : Char.isDigit c = true) : pyWs c = false := by
  cases hw : pyWs c
  · rfl
  · exfalso
    simp only [pyWs, Bool.or_eq_true, decide_eq_true_eq] at hw
    rcases hw with ((((rfl | rfl) | rfl) | rfl) | rfl) | rfl <;>
      exact absurd h (by decide)

/-- `takeWhile`/`dropWhile` on an all-true block followed by a
failing-head remainder. -/
lemma takeWhile_dropWhile_append (p : Char → Bool) (ds rest : List Char)
    (h1 : ∀ c ∈ ds, p c = true)
    (h2 : ∀ c, rest.head? = some c → p c = false) :
    (ds ++ rest).takeWhile p = ds ∧ (ds ++ rest).dropWhile p = rest := by
  induction ds with
  | nil =>
      refine ⟨?_, dropWhile_eq_self_of_head h2⟩
      cases rest with
      | nil => rfl
      | cons c cs => simp [List.takeWhile_cons, h2 c rfl]
  | cons d ds ih =>
      have hd : p d = true := h1 d (by simp)
      have ih' := ih (fun c hc => h1 c (by simp [hc]))
      simp [List.takeWhile_cons, List.dropWhile_cons, hd, ih'.1, ih'.2]

/-- Case analysis on a valid number token: pure digits, or digits, a
dot, and a non-empty digit fraction. -/
lemma isNumTok_elim {tok : List Char} (h : isNumTok tok = true) :
    (tok.dropWhile Char.isDigit = [] ∧ tok ≠ []) ∨
    (∃ fs, tok.dropWhile Char.isDigit = '.' :: fs ∧ fs ≠ [] ∧
      ∀ c ∈ fs, Char.isDigit c = true) := by
  unfold isNumTok at h
  cases hr : tok.dropWhile Char.isDigit with
  | nil =>
      left
      refine ⟨rfl, ?_⟩
      rintro rfl
      rw [hr] at h
      simp at h
  | cons c r2 =>
      right
      rw [hr] at h
      simp only [Bool.and_eq_true, decide_eq_true_eq, Bool.not_eq_true',
        List.all_eq_true] at h
      obtain ⟨rfl, hne, hdig⟩ := h
      refine ⟨r2, rfl, ?_, hdig⟩
      rintro rfl
      simp at hne

/-- Every character of a number token is a digit or the dot. -/
lemma numTok_chars {tok : List Char} (htok : isNumTok tok = true) :
    ∀ c ∈ tok, Char.isDigit c = true ∨ c = '.' := by
  intro c hc
  rw [← List.takeWhile_append_dropWhile (p := Char.isDigit) (l := tok)] at hc
  rcases List.mem_append.1 hc with h | h
  · exact Or.inl (List.mem_takeWhile_imp h)
  · rcases isNumTok_elim htok with ⟨hnil, _⟩ | ⟨fs, hfs, _, hdig⟩
    · rw [hnil] at h
      cases h
    · rw [hfs] at h
      rcases List.mem_cons.1 h with rfl | h
      · exact Or.inr rfl
      · exact Or.inl (hdig c h)

/-- The number group consumes exactly a maximal number token from the
head of the input when what follows can start neither a digit run nor
a fraction. -/
lemma parseNumber_concat (tok rest : List Char)
    (htok : isNumTok tok = true)
    (hhead : ∀ c, rest.head? = some c → (Char.isDigit c = false ∧ c ≠ '.')) :
    parseNumber (tok ++ rest) = some (numVal tok, rest) := by
  rcases isNumTok_elim htok with ⟨hnil, hne⟩ | ⟨fs, hfs, hfsne, hfsdig⟩
  · -- tok is a pure digit run
    have hall : ∀ c ∈ tok, Char.isDigit c = true :=
      List.dropWhile_eq_nil_iff.1 hnil
    have htd := takeWhile_dropWhile_append Char.isDigit tok rest hall
      (fun c hc => (hhead c hc).1)
    have hie : tok.isEmpty = false := by
      cases tok with
      | nil => exact absurd rfl hne
      | cons _ _ => rfl
    have htw : tok.takeWhile Char.isDigit = tok :=
      List.takeWhile_eq_self_iff.2 hall
    simp only [parseNumber, numVal, htd.1, htd.2, hnil, htw]
    cases rest with
    | nil => simp [hie]
    | cons c cs =>
        have hc := (hhead c rfl).2
        simp [hie, hc]
  · -- tok is digits, a dot, and a non-empty digit fraction
    have hds : ∀ c ∈ tok.takeWhile Char.isDigit, Char.isDigit c = true :=
      fun c hc => List.mem_takeWhile_imp hc
    have htok_eq : tok = tok.takeWhile Char.isDigit ++ '.' :: fs := by
      conv_lhs => rw [← List.takeWhile_append_dropWhile (p := Char.isDigit)
        (l := tok)]
      rw [hfs]
    have hconc : tok ++ rest =
        tok.takeWhile Char.isDigit ++ ('.' :: (fs ++ rest)) := by
      conv_lhs => rw [htok_eq]
      simp
    have h1 := takeWhile_dropWhile_append Char.isDigit
      (tok.takeWhile Char.isDigit) ('.' :: (fs ++ rest)) hds
      (fun c hc => by
        simp only [List.head?_cons, Option.some.injEq] at hc
        subst hc
        decide)
    have h2 := takeWhile_dropWhile_append Char.isDigit fs rest hfsdig
      (fun c hc => (hhead c hc).1)
    have hfse : fs.isEmpty = false := by
      cases fs with
      | nil => exact absurd rfl hfsne
      | cons _ _ => rfl
    rw [hconc] at *
    simp only [parseNumber, numVal, h1.1, h1.2, hfs, h2.1, h2.2, hfse]
    simp

/-- Full parse of a number token directly followed by a unit-group
token (with whitespace-free, non-digit-headed unit text). -/
lemma parse_tok_unit (tok u : List Char) (cu : String)
    (htok : isNumTok tok = true)
    (hu : parseUnit u = some cu)
    (hws : ∀ c ∈ u, pyWs c = false)
    (hhead : ∀ c, u.head? = some c → (Char.isDigit c = false ∧ c ≠ '.')) :
    _parse_size_to_bytes (String.mk (tok ++ u)) =
      some (numVal tok * unitMult cu) := by
  have hstrip : pyStrip (tok ++ u) = tok ++ u := by
    refine pyStrip_eq_self (fun c hc => ?_)
    rcases List.mem_append.1 hc with h | h
    · rcases numTok_chars htok c h with hd | rfl
      · exact digit_not_ws hd
      · decide
    · exact hws c h
  have hdropu : u.dropWhile pyWs = u :=
    dropWhile_eq_self_of_head (fun c hc =>
      hws c (List.mem_of_mem_head? hc))
  simp only [_parse_size_to_bytes, show (String.mk (tok ++ u)).data = tok ++ u
    from rfl, hstrip, parseNumber_concat tok u htok hhead, hdropu, hu]

/-- A maximal digit run taken from the head of the input is, when
non-empty, itself a number token valued by its digits. -/
lemma numTok_of_takeWhile (cs : List Char)
    (hie : (cs.takeWhile Char.isDigit).isEmpty = false) :
    isNumTok (cs.takeWhile Char.isDigit) = true ∧
    numVal (cs.takeWhile Char.isDigit) =
      (digitsToNat (cs.takeWhile Char.isDigit) : ℚ) := by
  have hds : ∀ c ∈ cs.takeWhile Char.isDigit, Char.isDigit c = true :=
    fun c hc => List.mem_takeWhile_imp hc
  have htwtw : (cs.takeWhile Char.isDigit).takeWhile Char.isDigit =
      cs.takeWhile Char.isDigit := List.takeWhile_eq_self_iff.2 hds
  have hdwnil : (cs.takeWhile Char.isDigit).dropWhile Char.isDigit = [] :=
    List.dropWhile_eq_nil_iff.2 hds
  constructor
  · simp only [isNumTok, hdwnil, htwtw, hie, Bool.not_false]
  · simp only [numVal, hdwnil, htwtw]

/-- Soundness of the number group: a successful parse splits the input
into a valid number token and the unconsumed rest. -/
lemma parseNumber_sound {cs : List Char} {v : ℚ} {rest : List Char}
    (h : parseNumber cs = some (v, rest)) :
    ∃ tok, cs = tok ++ rest ∧ isNumTok tok = true ∧ v = numVal tok := by
  have hsplit := List.takeWhile_append_dropWhile (p := Char.isDigit) (l := cs)
  simp only [parseNumber] at h
  cases hr : cs.dropWhile Char.isDigit with
  | nil =>
      rw [hr] at h hsplit
      by_cases hie : (cs.takeWhile Char.isDigit).isEmpty
      · rw [if_pos hie] at h
        cases h
      · rw [if_neg hie] at h
        simp only [Option.some.injEq, Prod.mk.injEq] at h
        obtain ⟨hv, hrest⟩ := h
        subst hrest
        have hp := numTok_of_takeWhile cs (Bool.not_eq_true _ ▸ hie)
        exact ⟨cs.takeWhile Char.isDigit, by simpa using hsplit.symm, hp.1,
          hv ▸ hp.2.symm⟩
  | cons c r2 =>
      rw [hr] at hsplit
      simp only [hr] at h
      by_cases hc : c = '.'
      · subst hc
        rw [if_pos rfl] at h
        by_cases hfe : (r2.takeWhile Char.isDigit).isEmpty
        · rw [if_pos hfe] at h
          by_cases hie : (cs.takeWhile Char.isDigit).isEmpty
          · rw [if_pos hie] at h
            cases h
          · rw [if_neg hie] at h
            simp only [Option.some.injEq, Prod.mk.injEq] at h
            obtain ⟨hv, hrest⟩ := h
            subst hrest
            have hp := numTok_of_takeWhile cs (Bool.not_eq_true _ ▸ hie)
            exact ⟨cs.takeWhile Char.isDigit, hsplit.symm, hp.1,
              hv ▸ hp.2.symm⟩
        · rw [if_neg hfe] at h
          simp only [Option.some.injEq, Prod.mk.injEq] at h
          obtain ⟨hv, hrest⟩ := h
          subst hrest
          subst hv
          have hds : ∀ x ∈ cs.takeWhile Char.isDigit, Char.isDigit x = true :=
            fun x hx => List.mem_takeWhile_imp hx
          have hfs : ∀ x ∈ r2.takeWhile Char.isDigit, Char.isDigit x = true :=
            fun x hx => List.mem_takeWhile_imp hx
          have hfe' : (r2.takeWhile Char.isDigit).isEmpty = false := by
            simpa using hfe
          have hr2 := List.takeWhile_append_dropWhile (p := Char.isDigit)
            (l := r2)
          -- the decomposed token
          have htd := takeWhile_dropWhile_append Char.isDigit
            (cs.takeWhile Char.isDigit)
            ('.' :: r2.takeWhile Char.isDigit) hds
            (fun x hx => by
              simp only [List.head?_cons, Option.some.injEq] at hx
              subst hx
              decide)
          refine ⟨cs.takeWhile Char.isDigit ++ '.' :: r2.takeWhile Char.isDigit,
            ?_, ?_, ?_⟩
          · conv_lhs => rw [← hsplit]
            simp only [List.cons_append, List.append_assoc, hr2]
          · simp only [isNumTok, htd.2]
            simp [hfe', List.all_eq_true, hfs]
          · simp only [numVal, htd.2, htd.1]
            simp
      · rw [if_neg hc] at h
        by_cases hie : (cs.takeWhile Char.isDigit).isEmpty
        · rw [if_pos hie] at h
          cases h
        · rw [if_neg hie] at h
          simp only [Option.some.injEq, Prod.mk.injEq] at h
          obtain ⟨hv, hrest⟩ := h
          subst hrest
          have hp := numTok_of_takeWhile cs (Bool.not_eq_true _ ▸ hie)
          exact ⟨cs.takeWhile Char.isDigit, hsplit.symm, hp.1, hv ▸ hp.2.symm⟩

/-- Transfers a head condition stated on the first character to the
`head?`-quantified form used by the parsing lemmas. -/
lemma head_cond_of_cons {c0 : Char} {cs : List Char}
    (h : Char.isDigit c0 = false ∧ c0 ≠ '.') :
    ∀ c, (c0 :: cs).head? = some c →
      (Char.isDigit c = false ∧ c ≠ '.') := by
  intro c hc
  simp only [List.head?_cons, Option.some.injEq] at hc
  subst hc
  exact h

/-- A successful size parse exhibits a regex prefix in the stripped
input. -/
lemma sizePrefix_of_parse {s : String} {v : ℚ}
    (h : _parse_size_to_bytes s = some v) :
    hasSizePrefix (pyStrip s.data) = true := by
  unfold _parse_size_to_bytes at h
  cases hp : parseNumber (pyStrip s.data) with
  | none => simp only [hp] at h; cases h
  | some pr =>
      obtain ⟨v0, rest⟩ := pr
      simp only [hp] at h
      cases hu : parseUnit (rest.dropWhile pyWs) with
      | none => simp only [hu] at h; cases h
      | some cu =>
          obtain ⟨tok, hcs, htok, _⟩ := parseNumber_sound hp
          unfold hasSizePrefix
          rw [List.any_eq_true]
          refine ⟨tok.length, List.mem_range.2 ?_, ?_⟩
          · rw [hcs, List.length_append]
            omega
          · rw [hcs, List.take_left, List.drop_left]
            simp [htok, hu]

/-! ## Claims -/

/-- C1: the eligibility guard `require_valid_target` — whenever
`check_target` fails with reason `r`, the guarded action returns
`{"error": r}` whatever the wrapped action is (so the wrapped action is
never invoked); whenever the check passes, the guarded action returns
the wrapped action's result unchanged. -/
theorem claim_C1 (env : ContainerEnv) (name : String) :
    (∀ r : String, check_target env name = (false, some r) →
      ∀ fn : String → ActionResult,
        require_valid_target env fn name = error_result r) ∧
    ((check_target env name).1 = true →
      ∀ fn : String → ActionResult,
        require_valid_target env fn name = fn name) := by
  constructor
  · intro r hr fn
    unfold require_valid_target
    rw [hr]
    unfold check_target at hr
    split_ifs at hr with h1 h2 h3
    · simp only [Prod.mk.injEq, Option.some.injEq] at hr
      simp [← hr.2]
    · simp only [Prod.mk.injEq, Option.some.injEq] at hr
      simp [← hr.2]
    · simp only [Prod.mk.injEq, Option.some.injEq] at hr
      simp [← hr.2]
    · exact absurd hr (by simp)
  · intro h fn
    unfold require_valid_target
    unfold check_target at h ⊢
    split_ifs at h ⊢
    all_goals simp_all

/-- C1 witness: with an empty inventory, any guarded action on
`"testapp_cart"` returns the `target not found` error result. -/
theorem claim_C1_witness :
    require_valid_target ⟨[]⟩ (fun _ => ⟨none, [("ran", "yes")]⟩)
      "testapp_cart" = error_result "target not found" :=
  (claim_C1 ⟨[]⟩ "testapp_cart").1 "target not found" (by decide) _

/-- C2: `check_target` evaluates eligibility in a fixed order, the
first failing check determining the reason: an infrastructure name
(in the fixed exclusion set or with a known infrastructure beginning,
i.e. `is_monitoring_container`) is excluded regardless of running
state; then a name absent from the full inventory is `target not
found`; then a present but not running name is `target not running`;
otherwise the target is eligible with a null reason. -/
theorem claim_C2 (env : ContainerEnv) (name : String) :
    (is_monitoring_container name = true →
      check_target env name =
        (false, some "target excluded (monitoring container)")) ∧
    (is_monitoring_container name = false → container_exists env name = false →
      check_target env name = (false, some "target not found")) ∧
    (is_monitoring_container name = false → container_exists env name = true →
      is_running_container env name = false →
      check_target env name = (false, some "target not running")) ∧
    (is_monitoring_container name = false → container_exists env name = true →
      is_running_container env name = true →
      check_target env name = (true, none)) := by
  refine ⟨fun h1 => ?_, fun h1 h2 => ?_, fun h1 h2 h3 => ?_, fun h1 h2 h3 => ?_⟩
  · simp [check_target, h1]
  · simp [check_target, h1, h2]
  · simp [check_target, h1, h2, h3]
  · simp [check_target, h1, h2, h3]

/-- C2 witness: `"prometheus"` is excluded as a monitoring container
even in an environment where it is listed and running. -/
theorem claim_C2_witness :
    check_target ⟨[⟨"prometheus", true⟩]⟩ "prometheus" =
      (false, some "target excluded (monitoring container)") :=
  (claim_C2 ⟨[⟨"prometheus", true⟩]⟩ "prometheus").1 (by decide)

/-- Membership in the running-names set of `pick_targets`. -/
lemma mem_running_names (env : ContainerEnv) (n : String) :
    n ∈ running_names env ↔
      (n ≠ "" ∧ is_running_container env n = true) := by
  simp only [running_names, List.mem_filter, List.mem_map, List.mem_filter,
    is_running_container, List.any_eq_true, decide_eq_true_eq]
  constructor
  · rintro ⟨⟨c, hc, rfl⟩, hne⟩
    exact ⟨hne, c, hc, rfl⟩
  · rintro ⟨hne, c, hc, rfl⟩
    exact ⟨⟨c, hc, rfl⟩, hne⟩

/-- C6: with an empty configured list, `pick_targets` returns exactly
the currently running, non-infrastructure container names; with a
one-element configured list `[x]`, it returns `[x]` when `x` is
running and non-infrastructure and the empty list otherwise.  (The
runtime's name listing drops empty names, so a target name is a
non-empty string.) -/
theorem claim_C6 (env : ContainerEnv) :
    (∀ n : String, n ∈ pick_targets env [] ↔
      (n ≠ "" ∧ is_running_container env n = true ∧
        is_monitoring_container n = false)) ∧
    (∀ x : String, x ≠ "" →
      pick_targets env [x] =
        if is_running_container env x = true ∧ is_monitoring_container x = false
        then [x] else []) := by
  constructor
  · intro n
    simp only [pick_targets, List.isEmpty_nil, if_pos, List.mem_filter,
      Bool.not_eq_true', mem_running_names]
    tauto
  · intro x hx
    have hany : ((running_names env).any (fun m => decide (m = x))) =
        is_running_container env x := by
      cases h : is_running_container env x with
      | false =>
          simp only [List.any_eq_false, decide_eq_true_eq]
          intro m hm heq
          subst heq
          have hrun := ((mem_running_names env m).1 hm).2
          simp [h] at hrun
      | true =>
          simp only [List.any_eq_true, decide_eq_true_eq]
          exact ⟨x, (mem_running_names env x).2 ⟨hx, h⟩, rfl⟩
    by_cases hr : is_running_container env x = true
    · by_cases hm : is_monitoring_container x = false
      · rw [if_pos ⟨hr, hm⟩]
        simp [pick_targets, hany, hr, hm, List.filter]
      · rw [if_neg (fun hc => hm hc.2)]
        simp only [Bool.not_eq_false] at hm
        simp [pick_targets, hany, hr, hm, List.filter]
    · rw [if_neg (fun hc => hr hc.1)]
      simp only [Bool.not_eq_true] at hr
      simp [pick_targets, hany, hr, List.filter]

/-- `int()` truncation is the identity on an integer-valued rational
(cast from `ℤ`). -/
lemma pyTrunc_intCast (k : ℤ) : pyTrunc ((k : ℤ) : ℚ) = k := by
  unfold pyTrunc
  rw [ratFloor_eq, ratFloor_eq]
  split_ifs with h
  · rw [← Int.cast_neg, Int.floor_intCast]
    simp
  · exact Int.floor_intCast k

/-- The exact CPU quota arithmetic: `int(100000 * p / 100)` in float
arithmetic equals the integer `100000 * p / 100 = 1000 * p`. -/
lemma quota_arith (p : ℤ) :
    pyTrunc ((100000 : ℚ) * (p : ℚ) / 100) = (100000 * p) / 100 := by
  have h1 : ((100000 : ℚ) * (p : ℚ) / 100) = ((1000 * p : ℤ) : ℚ) := by
    push_cast
    ring
  have h2 : ((100000 : ℤ) * p) / 100 = 1000 * p := by
    rw [show (100000 : ℤ) * p = 100 * (1000 * p) by ring]
    exact Int.mul_ediv_cancel_left _ (by norm_num)
  rw [h1, pyTrunc_intCast, h2]

/-- C7: the `docker update` command built by `update_resources` — a
non-null `cpu_percent` emits `--cpu-period 100000` and `--cpu-quota`
equal to `max 1 (100000 * percent / 100)` (exact division, so
`cpu_percent = 40` emits quota `40000`); a non-null `mem_limit_mb = m`
emits `--memory <m>m`; a null parameter emits no corresponding
flags. -/
theorem claim_C7 :
    (∀ (name : String) (p m : ℤ),
      update_resources_args name (some p) (some m) =
        ["docker", "update", "--cpu-period", "100000", "--cpu-quota",
          toString (max 1 ((100000 * p) / 100)), "--memory",
          toString m ++ "m", name] ∧
      update_resources_args name (some p) none =
        ["docker", "update", "--cpu-period", "100000", "--cpu-quota",
          toString (max 1 ((100000 * p) / 100)), name] ∧
      update_resources_args name none (some m) =
        ["docker", "update", "--memory", toString m ++ "m", name] ∧
      update_resources_args name none none = ["docker", "update", name]) ∧
    update_resources_args "c1" (some 40) none =
      ["docker", "update", "--cpu-period", "100000", "--cpu-quota",
        "40000", "c1"] ∧
    update_resources_args "c1" none (some 256) =
      ["docker", "update", "--memory", "256m", "c1"] := by
  have hq : ∀ p : ℤ,
      toString (max 1 (pyTrunc ((100000 : ℚ) * (p : ℚ) / 100))) =
        toString (max 1 ((100000 * p) / 100)) := by
    intro p
    rw [quota_arith]
  have h100 : toString (100000 : ℤ) = "100000" := by decide
  have hgen : ∀ (name : String) (p m : ℤ),
      update_resources_args name (some p) (some m) =
        ["docker", "update", "--cpu-period", "100000", "--cpu-quota",
          toString (max 1 ((100000 * p) / 100)), "--memory",
          toString m ++ "m", name] ∧
      update_resources_args name (some p) none =
        ["docker", "update", "--cpu-period", "100000", "--cpu-quota",
          toString (max 1 ((100000 * p) / 100)), name] ∧
      update_resources_args name none (some m) =
        ["docker", "update", "--memory", toString m ++ "m", name] ∧
      update_resources_args name none none = ["docker", "update", name] := by
    intro name p m
    refine ⟨?_, ?_, ?_, ?_⟩ <;> simp [update_resources_args, hq p, h100]
  refine ⟨hgen, ?_, ?_⟩
  · rw [(hgen "c1" 40 0).2.1]
    decide
  · rw [(hgen "c1" 0 256).2.2.1]
    decide

/-- C8: `_run` and `_run_docker` are total functions of the process
outcome (they never raise: every exception path yields a structured
result), and the result's `error` field is null exactly when the
command completed with exit code 0 — any non-zero exit, missing
binary, or timeout yields a non-null error string. -/
theorem claim_C8 (cmd : List String) (oc : ProcOutcome) :
    ((_run cmd oc).error = none ↔
      ∃ out err : String, oc = .completed out err 0) ∧
    ((_run_docker cmd oc).error = none ↔
      ∃ out err : String, oc = .completed out err 0) := by
  constructor <;>
  · cases oc with
    | completed out err rc =>
        by_cases h : rc = 0
        · subst h
          simp [_run, _run_docker]
        · constructor
          · intro hc
            simp only [_run, _run_docker] at hc
            rw [if_neg h] at hc
            exact absurd hc (by split <;> simp)
          · rintro ⟨o, e, he⟩
            cases he
            exact absurd rfl h
    | fileNotFound m => simp [_run, _run_docker]
    | timedOut m => simp [_run, _run_docker]
    | otherFailure m => simp [_run, _run_docker]

/-- C8 witness: a successful `docker ps` yields a null error, and a
timeout yields a non-null one. -/
theorem claim_C8_witness :
    (_run ["docker", "ps"] (.completed "out" "" 0)).error = none ∧
      ¬(_run_docker ["ps"] (.timedOut "t")).error = none := by
  constructor
  · exact (claim_C8 ["docker", "ps"] (.completed "out" "" 0)).1.2 ⟨"out", "", rfl⟩
  · intro h
    obtain ⟨o, e, he⟩ := (claim_C8 ["ps"] (.timedOut "t")).2.1 h
    cases he

/-- Incrementing a counter dict adds exactly one to its total count. -/
lemma sumCounts_bump (l : List (String × ℕ)) (k : String) :
    sumCounts (bump l k) = sumCounts l + 1 := by
  induction l with
  | nil => simp [bump, sumCounts]
  | cons e rest ih =>
      obtain ⟨k', v⟩ := e
      by_cases h : k' = k
      · simp [bump, h, sumCounts]
        omega
      · simp only [bump, if_neg h, sumCounts, List.map_cons, List.sum_cons] at ih ⊢
        omega

/-- Incrementing a counter dict adds exactly one to the bumped key's
count. -/
lemma getCount_bump (l : List (String × ℕ)) (k : String) :
    getCount (bump l k) k = getCount l k + 1 := by
  induction l with
  | nil => simp [bump, getCount]
  | cons e rest ih =>
      obtain ⟨k', v⟩ := e
      by_cases h : k' = k
      · simp [bump, h, getCount]
      · simp [bump, getCount, if_neg h, ih]

/-- C9: starting from a fresh `Stats`, after any sequence of
`add(action, target, ok)` calls, `errors ≤ total` and the `by_action`
and `by_target` counters each sum to `total`. -/
theorem claim_C9 (ops : List (String × String × Bool)) :
    (applyAdds Stats.init ops).errors ≤ (applyAdds Stats.init ops).total ∧
    sumCounts (applyAdds Stats.init ops).by_action =
      (applyAdds Stats.init ops).total ∧
    sumCounts (applyAdds Stats.init ops).by_target =
      (applyAdds Stats.init ops).total := by
  suffices h : ∀ st : Stats,
      (st.errors ≤ st.total ∧ sumCounts st.by_action = st.total ∧
        sumCounts st.by_target = st.total) →
      ((applyAdds st ops).errors ≤ (applyAdds st ops).total ∧
        sumCounts (applyAdds st ops).by_action = (applyAdds st ops).total ∧
        sumCounts (applyAdds st ops).by_target = (applyAdds st ops).total) by
    exact h Stats.init ⟨by simp [Stats.init], by simp [Stats.init, sumCounts],
      by simp [Stats.init, sumCounts]⟩
  induction ops with
  | nil => intro st h; exact h
  | cons op rest ih =>
      intro st h
      obtain ⟨a, t, ok⟩ := op
      refine ih (st.add a t ok) ?_
      obtain ⟨h1, h2, h3⟩ := h
      refine ⟨?_, ?_, ?_⟩
      · simp only [Stats.add]
        cases ok <;> simp <;> omega
      · simp only [Stats.add, sumCounts_bump, h2]
      · simp only [Stats.add, sumCounts_bump, h3]

/-- C5 counterexample: an action result carrying the non-null error
string `""` does *not* increment `errors` (the loop derives `ok` with
`not bool(...)`, and an empty string is falsy), so "increments errors
iff the result carries a non-null error string" is false as stated. -/
theorem claim_C5_counterexample :
    (record_result Stats.init "pause" "t1" ⟨some "", []⟩).errors = 0 ∧
      (ActionResult.mk (some "") []).error ≠ none := by
  constructor
  · rfl
  · simp

/-- C5 (amended): each recorded action result increments `total` by
exactly one, the per-action and per-target counters for the given keys
by exactly one, and `errors` by exactly one if and only if the result
carries a non-null *and non-empty* error string (a null or empty error
counts as success). -/
theorem claim_C5 (st : Stats) (action target : String) (r : ActionResult) :
    (record_result st action target r).total = st.total + 1 ∧
    getCount (record_result st action target r).by_action action =
      getCount st.by_action action + 1 ∧
    getCount (record_result st action target r).by_target target =
      getCount st.by_target target + 1 ∧
    ((record_result st action target r).errors = st.errors + 1 ↔
      ∃ s : String, r.error = some s ∧ s ≠ "") ∧
    ((record_result st action target r).errors = st.errors ↔
      ¬∃ s : String, r.error = some s ∧ s ≠ "") := by
  obtain ⟨err, payload⟩ := r
  refine ⟨rfl, getCount_bump _ _, getCount_bump _ _, ?_, ?_⟩ <;>
  · simp only [record_result, Stats.add, result_ok]
    cases err with
    | none => simp
    | some s =>
        by_cases h : s = "" <;> simp [h]

/-- C5 witness: a result with error `"boom"` increments `errors`; a
result with a null error does not. -/
theorem claim_C5_witness :
    (record_result Stats.init "pause" "t1" ⟨some "boom", []⟩).errors =
        Stats.init.errors + 1 ∧
      (record_result Stats.init "restart" "t2" ⟨none, []⟩).errors =
        Stats.init.errors := by
  constructor
  · exact (claim_C5 Stats.init "pause" "t1" ⟨some "boom", []⟩).2.2.2.1.2
      ⟨"boom", rfl, by decide⟩
  · exact (claim_C5 Stats.init "restart" "t2" ⟨none, []⟩).2.2.2.2.2
      (by rintro ⟨s, hs, _⟩; cases hs)

/-- C6 witness: a single running service container is picked both by
auto-detection and by explicit configuration. -/
theorem claim_C6_witness :
    ("testapp_cart" ∈ pick_targets ⟨[⟨"testapp_cart", true⟩]⟩ [] ∧
      pick_targets ⟨[⟨"testapp_cart", true⟩]⟩ ["testapp_cart"] =
        ["testapp_cart"]) := by
  constructor
  · exact (claim_C6 ⟨[⟨"testapp_cart", true⟩]⟩).1 "testapp_cart" |>.2
      ⟨by decide, by decide, by decide⟩
  · rw [(claim_C6 ⟨[⟨"testapp_cart", true⟩]⟩).2 "testapp_cart" (by decide)]
    rw [if_pos ⟨by decide, by decide⟩]

/-- C3 counterexample: the regex is anchored with `re.match`, which
matches a *prefix*, so `"1MBx"` — a string not of the form
`<number><unit>` — parses to `1000000` instead of returning null,
refuting the claim's "every string not matching the
`<number><unit>` pattern returns null". -/
theorem claim_C3_counterexample :
    _parse_size_to_bytes "1MBx" = some 1000000 ∧
      isExactSizeForm "1MBx" = false := by
  constructor
  · rw [show ("1MBx" : String) = String.mk (['1'] ++ "MBx".data) from rfl,
      parse_tok_unit ['1'] "MBx".data "MB" (by decide) (by decide) (by decide)
        (head_cond_of_cons (by decide)),
      show unitMult "MB" = 1000 ^ 2 from rfl,
      show numVal ['1'] = ((1 : ℕ) : ℚ) from rfl]
    norm_num
  · decide

/-- C3 (amended): for every size string that is a number token directly
followed by one of the nine specified units, parsing returns the
number times the unit's multiplier — 1000-based for plain units,
1024-based for "i" units (so `"1MiB"` is 1048576 and `"1.5GB"` is
1500000000); and every string in which no prefix of the stripped text
matches number-whitespace-unit returns null (the regex is matched as a
prefix via `re.match`, so trailing characters after the unit are
ignored rather than rejected). -/
theorem claim_C3 :
    (∀ tok : List Char, isNumTok tok = true →
      _parse_size_to_bytes (String.mk (tok ++ "B".data)) =
        some (numVal tok * 1) ∧
      _parse_size_to_bytes (String.mk (tok ++ "KB".data)) =
        some (numVal tok * 1000) ∧
      _parse_size_to_bytes (String.mk (tok ++ "KiB".data)) =
        some (numVal tok * 1024) ∧
      _parse_size_to_bytes (String.mk (tok ++ "MB".data)) =
        some (numVal tok * 1000 ^ 2) ∧
      _parse_size_to_bytes (String.mk (tok ++ "MiB".data)) =
        some (numVal tok * 1024 ^ 2) ∧
      _parse_size_to_bytes (String.mk (tok ++ "GB".data)) =
        some (numVal tok * 1000 ^ 3) ∧
      _parse_size_to_bytes (String.mk (tok ++ "GiB".data)) =
        some (numVal tok * 1024 ^ 3) ∧
      _parse_size_to_bytes (String.mk (tok ++ "TB".data)) =
        some (numVal tok * 1000 ^ 4) ∧
      _parse_size_to_bytes (String.mk (tok ++ "TiB".data)) =
        some (numVal tok * 1024 ^ 4)) ∧
    _parse_size_to_bytes "1MiB" = some 1048576 ∧
    _parse_size_to_bytes "1.5GB" = some 1500000000 ∧
    (∀ s : String, hasSizePrefix (pyStrip s.data) = false →
      _parse_size_to_bytes s = none) := by
  refine ⟨fun tok htok => ⟨?_, ?_, ?_, ?_, ?_, ?_, ?_, ?_, ?_⟩, ?_, ?_, ?_⟩
  · rw [parse_tok_unit tok "B".data "B" htok (by decide) (by decide)
      (head_cond_of_cons (by decide)), show unitMult "B" = 1 from rfl]
  · rw [parse_tok_unit tok "KB".data "KB" htok (by decide) (by decide)
      (head_cond_of_cons (by decide)), show unitMult "KB" = 1000 from rfl]
  · rw [parse_tok_unit tok "KiB".data "KIB" htok (by decide) (by decide)
      (head_cond_of_cons (by decide)), show unitMult "KIB" = 1024 from rfl]
  · rw [parse_tok_unit tok "MB".data "MB" htok (by decide) (by decide)
      (head_cond_of_cons (by decide)), show unitMult "MB" = 1000 ^ 2 from rfl]
  · rw [parse_tok_unit tok "MiB".data "MIB" htok (by decide) (by decide)
      (head_cond_of_cons (by decide)), show unitMult "MIB" = 1024 ^ 2 from rfl]
  · rw [parse_tok_unit tok "GB".data "GB" htok (by decide) (by decide)
      (head_cond_of_cons (by decide)), show unitMult "GB" = 1000 ^ 3 from rfl]
  · rw [parse_tok_unit tok "GiB".data "GIB" htok (by decide) (by decide)
      (head_cond_of_cons (by decide)), show unitMult "GIB" = 1024 ^ 3 from rfl]
  · rw [parse_tok_unit tok "TB".data "TB" htok (by decide) (by decide)
      (head_cond_of_cons (by decide)), show unitMult "TB" = 1000 ^ 4 from rfl]
  · rw [parse_tok_unit tok "TiB".data "TIB" htok (by decide) (by decide)
      (head_cond_of_cons (by decide)), show unitMult "TIB" = 1024 ^ 4 from rfl]
  · rw [show ("1MiB" : String) = String.mk (['1'] ++ "MiB".data) from rfl,
      parse_tok_unit ['1'] "MiB".data "MIB" (by decide) (by decide) (by decide)
        (head_cond_of_cons (by decide)),
      show unitMult "MIB" = 1024 ^ 2 from rfl,
      show numVal ['1'] = ((1 : ℕ) : ℚ) from rfl]
    norm_num
  · rw [show ("1.5GB" : String) = String.mk (['1', '.', '5'] ++ "GB".data)
        from rfl,
      parse_tok_unit ['1', '.', '5'] "GB".data "GB" (by decide) (by decide)
        (by decide) (head_cond_of_cons (by decide)),
      show unitMult "GB" = 1000 ^ 3 from rfl,
      show numVal ['1', '.', '5'] =
        ((1 : ℕ) : ℚ) + ((5 : ℕ) : ℚ) / 10 ^ (1 : ℕ) from rfl]
    norm_num
  · intro s hs
    cases hres : _parse_size_to_bytes s with
    | none => rfl
    | some v => exact absurd (sizePrefix_of_parse hres) (by simp [hs])

/-- C3 witness: the general statement applied at the token `7` with
unit `TB`, and the null result on a prefix-free string. -/
theorem claim_C3_witness :
    _parse_size_to_bytes (String.mk (['7'] ++ "TB".data)) =
      some (numVal ['7'] * 1000 ^ 4) ∧
    _parse_size_to_bytes "hello" = none := by
  exact ⟨(claim_C3.1 ['7'] (by decide)).2.2.2.2.2.2.2.1,
    claim_C3.2.2.2 "hello" (by decide)⟩

/-- C10: a unit matched by the regex but absent from the multiplier
table falls back to multiplier 1, so `<number>PB` and `<number>PiB`
parse to the bare numeric value (`"2PB"` is 2.0) rather than to null
or to a petabyte-scaled value. -/
theorem claim_C10 :
    (∀ tok : List Char, isNumTok tok = true →
      _parse_size_to_bytes (String.mk (tok ++ "PB".data)) =
        some (numVal tok) ∧
      _parse_size_to_bytes (String.mk (tok ++ "PiB".data)) =
        some (numVal tok)) ∧
    _parse_size_to_bytes "2PB" = some 2 := by
  refine ⟨fun tok htok => ⟨?_, ?_⟩, ?_⟩
  · rw [parse_tok_unit tok "PB".data "PB" htok (by decide) (by decide)
      (head_cond_of_cons (by decide)), show unitMult "PB" = 1 from rfl,
      mul_one]
  · rw [parse_tok_unit tok "PiB".data "PIB" htok (by decide) (by decide)
      (head_cond_of_cons (by decide)), show unitMult "PIB" = 1 from rfl,
      mul_one]
  · rw [show ("2PB" : String) = String.mk (['2'] ++ "PB".data) from rfl,
      parse_tok_unit ['2'] "PB".data "PB" (by decide) (by decide) (by decide)
        (head_cond_of_cons (by decide)),
      show unitMult "PB" = 1 from rfl,
      show numVal ['2'] = ((2 : ℕ) : ℚ) from rfl]
    norm_num

/-- C10 witness: the general statement applied at the token `3.5`. -/
theorem claim_C10_witness :
    _parse_size_to_bytes (String.mk (['3', '.', '5'] ++ "PB".data)) =
      some (numVal ['3', '.', '5']) :=
  (claim_C10.1 ['3', '.', '5'] (by decide)).1

/-- The rounded optional average in claim form. -/
lemma roundOpt_avg (n : ℕ) (l : List ℚ) :
    roundOpt n (avgQ l) =
      if l = [] then none
      else some (pyRound (l.sum / (l.length : ℚ)) n) := by
  cases l with
  | nil => simp [avgQ, roundOpt]
  | cons x xs => simp [avgQ, roundOpt]

/-- The percent delta of two optional averages in claim form. -/
lemma deltaPct_avg (b a : List ℚ) :
    deltaPct (avgQ b) (avgQ a) =
      if b ≠ [] ∧ a ≠ [] ∧ b.sum / (b.length : ℚ) ≠ 0 then
        some (pyRound ((a.sum / (a.length : ℚ) - b.sum / (b.length : ℚ)) /
          (b.sum / (b.length : ℚ)) * 100) 2)
      else none := by
  cases b with
  | nil => simp [avgQ, deltaPct]
  | cons x xs =>
      cases a with
      | nil => simp [avgQ, deltaPct]
      | cons y ys =>
          by_cases hz : (x :: xs).sum / (((x :: xs).length : ℕ) : ℚ) ≠ 0
          · simp [avgQ, deltaPct, hz]
          · simp only [ne_eq, Decidable.not_not] at hz
            simp [avgQ, deltaPct, hz]

/-- Rounding zero gives zero. -/
lemma pyRound_zero (n : ℕ) : pyRound 0 n = 0 := by
  norm_num [pyRound, roundHalfEven, ratFloor_eq]

/-- C4 counterexample: the summary rounds every published value, so
with before-values `[3]` and after-values `[4]` the published percent
delta is `33.33`, not the exact `(4 − 3)/3 × 100 = 100/3` the claim's
"equals" demands. -/
theorem claim_C4_counterexample :
    (Stats.summary
        { Stats.init with prom_series := [("m", ([3], [4]))] }).prom =
      [("m", DeltaEntry.mk (some 3) (some 4) (some (3333 / 100)))] ∧
    (3333 : ℚ) / 100 ≠ (4 - 3) / 3 * 100 := by
  constructor
  · have h3 : pyRound 3 6 = 3 := by
      norm_num [pyRound, roundHalfEven, ratFloor_eq]
    have h4 : pyRound 4 6 = 4 := by
      norm_num [pyRound, roundHalfEven, ratFloor_eq]
    have hd : pyRound ((4 - 3) / 3 * 100) 2 = 3333 / 100 := by
      norm_num [pyRound, roundHalfEven, ratFloor_eq]
    simp [Stats.summary, avgQ, roundOpt, deltaPct, h3, h4, hd]
  · norm_num

/-- C4 (amended): every accumulated list yields its arithmetic mean
rounded to the field's precision (latency 2 decimals, metric and
uptime 6, cpu 3, memory 1), or null if the list is empty; every
percent delta equals `(after_avg − before_avg)/before_avg × 100`
computed from the unrounded means and rounded to 2 decimals, defined
exactly when both averages exist and the before average is non-zero,
else null; the error rate is `errors/total × 100` rounded to 2
decimals, and 0 when `total` is 0.  In particular before `[10]` /
after `[15]` give delta exactly 50, and a fresh `Stats` summarises
with error rate 0, every average null and no metric entries. -/
theorem claim_C4 :
    (∀ st : Stats,
      (st.summary.avg_latency_ms_before =
        if st.lat_before = [] then none
        else some (pyRound (st.lat_before.sum / (st.lat_before.length : ℚ)) 2)) ∧
      (st.summary.avg_latency_ms_after =
        if st.lat_after = [] then none
        else some (pyRound (st.lat_after.sum / (st.lat_after.length : ℚ)) 2)) ∧
      (st.summary.uptime.avg_before =
        if st.up_before_vals = [] then none
        else some (pyRound (st.up_before_vals.sum /
          (st.up_before_vals.length : ℚ)) 6)) ∧
      (st.summary.uptime.avg_after =
        if st.up_after_vals = [] then none
        else some (pyRound (st.up_after_vals.sum /
          (st.up_after_vals.length : ℚ)) 6)) ∧
      (st.summary.docker_cpu_pct.avg_before =
        if st.docker_cpu_before = [] then none
        else some (pyRound (st.docker_cpu_before.sum /
          (st.docker_cpu_before.length : ℚ)) 3)) ∧
      (st.summary.docker_cpu_pct.avg_after =
        if st.docker_cpu_after = [] then none
        else some (pyRound (st.docker_cpu_after.sum /
          (st.docker_cpu_after.length : ℚ)) 3)) ∧
      (st.summary.docker_mem_used_bytes.avg_before =
        if st.docker_mem_before = [] then none
        else some (pyRound (st.docker_mem_before.sum /
          (st.docker_mem_before.length : ℚ)) 1)) ∧
      (st.summary.docker_mem_used_bytes.avg_after =
        if st.docker_mem_after = [] then none
        else some (pyRound (st.docker_mem_after.sum /
          (st.docker_mem_after.length : ℚ)) 1)) ∧
      (∀ (al : String) (bl al2 : List ℚ), (al, (bl, al2)) ∈ st.prom_series →
        (al, DeltaEntry.mk
          (if bl = [] then none
            else some (pyRound (bl.sum / (bl.length : ℚ)) 6))
          (if al2 = [] then none
            else some (pyRound (al2.sum / (al2.length : ℚ)) 6))
          (if bl ≠ [] ∧ al2 ≠ [] ∧ bl.sum / (bl.length : ℚ) ≠ 0 then
            some (pyRound ((al2.sum / (al2.length : ℚ) -
              bl.sum / (bl.length : ℚ)) / (bl.sum / (bl.length : ℚ)) * 100) 2)
          else none)) ∈ st.summary.prom) ∧
      (st.summary.uptime.delta_pct =
        if st.up_before_vals ≠ [] ∧ st.up_after_vals ≠ [] ∧
            st.up_before_vals.sum / (st.up_before_vals.length : ℚ) ≠ 0 then
          some (pyRound ((st.up_after_vals.sum / (st.up_after_vals.length : ℚ) -
            st.up_before_vals.sum / (st.up_before_vals.length : ℚ)) /
            (st.up_before_vals.sum / (st.up_before_vals.length : ℚ)) * 100) 2)
        else none) ∧
      (st.summary.docker_cpu_pct.delta_pct =
        if st.docker_cpu_before ≠ [] ∧ st.docker_cpu_after ≠ [] ∧
            st.docker_cpu_before.sum / (st.docker_cpu_before.length : ℚ) ≠ 0 then
          some (pyRound ((st.docker_cpu_after.sum /
            (st.docker_cpu_after.length : ℚ) -
            st.docker_cpu_before.sum / (st.docker_cpu_before.length : ℚ)) /
            (st.docker_cpu_before.sum / (st.docker_cpu_before.length : ℚ)) *
            100) 2)
        else none) ∧
      (st.summary.docker_mem_used_bytes.delta_pct =
        if st.docker_mem_before ≠ [] ∧ st.docker_mem_after ≠ [] ∧
            st.docker_mem_before.sum / (st.docker_mem_before.length : ℚ) ≠ 0 then
          some (pyRound ((st.docker_mem_after.sum /
            (st.docker_mem_after.length : ℚ) -
            st.docker_mem_before.sum / (st.docker_mem_before.length : ℚ)) /
            (st.docker_mem_before.sum / (st.docker_mem_before.length : ℚ)) *
            100) 2)
        else none) ∧
      (st.summary.error_pct =
        if st.total = 0 then 0
        else pyRound ((st.errors : ℚ) / (st.total : ℚ) * 100) 2)) ∧
    (Stats.summary
        { Stats.init with prom_series := [("m", ([10], [15]))] }).prom =
      [("m", DeltaEntry.mk (some 10) (some 15) (some 50))] ∧
    ((Stats.summary Stats.init).error_pct = 0 ∧
      (Stats.summary Stats.init).avg_latency_ms_before = none ∧
      (Stats.summary Stats.init).avg_latency_ms_after = none ∧
      (Stats.summary Stats.init).uptime = DeltaEntry.mk none none none ∧
      (Stats.summary Stats.init).docker_cpu_pct = DeltaEntry.mk none none none ∧
      (Stats.summary Stats.init).docker_mem_used_bytes =
        DeltaEntry.mk none none none ∧
      (Stats.summary Stats.init).prom = []) := by
  refine ⟨fun st => ⟨?_, ?_, ?_, ?_, ?_, ?_, ?_, ?_, ?_, ?_, ?_, ?_, ?_⟩,
    ?_, ?_⟩
  · simp only [Stats.summary]
    exact roundOpt_avg 2 _
  · simp only [Stats.summary]
    exact roundOpt_avg 2 _
  · simp only [Stats.summary]
    exact roundOpt_avg 6 _
  · simp only [Stats.summary]
    exact roundOpt_avg 6 _
  · simp only [Stats.summary]
    exact roundOpt_avg 3 _
  · simp only [Stats.summary]
    exact roundOpt_avg 3 _
  · simp only [Stats.summary]
    exact roundOpt_avg 1 _
  · simp only [Stats.summary]
    exact roundOpt_avg 1 _
  · intro al bl al2 hmem
    simp only [Stats.summary]
    rw [← roundOpt_avg, ← roundOpt_avg, ← deltaPct_avg]
    exact List.mem_map_of_mem _ hmem
  · simp only [Stats.summary]
    exact deltaPct_avg _ _
  · simp only [Stats.summary]
    exact deltaPct_avg _ _
  · simp only [Stats.summary]
    exact deltaPct_avg _ _
  · simp only [Stats.summary]
    by_cases h : st.total = 0
    · simp [h, pyRound_zero]
    · simp [h]
  · have h10 : pyRound 10 6 = 10 := by
      norm_num [pyRound, roundHalfEven, ratFloor_eq]
    have h15 : pyRound 15 6 = 15 := by
      norm_num [pyRound, roundHalfEven, ratFloor_eq]
    have h50 : pyRound ((15 - 10) / 10 * 100) 2 = 50 := by
      norm_num [pyRound, roundHalfEven, ratFloor_eq]
    simp [Stats.summary, avgQ, roundOpt, deltaPct, h10, h15, h50]
  · refine ⟨?_, ?_, ?_, ?_, ?_, ?_, ?_⟩ <;>
      simp [Stats.summary, Stats.init, avgQ, roundOpt, deltaPct, pyRound_zero]

/-- C4 witness: the per-alias summary statement applied to a state
holding one metric series with before-values `[10]` and after-values
`[15]`. -/
theorem claim_C4_witness :
    ("m", DeltaEntry.mk
      (if ([10] : List ℚ) = [] then none
        else some (pyRound (([10] : List ℚ).sum /
          ((([10] : List ℚ).length : ℕ) : ℚ)) 6))
      (if ([15] : List ℚ) = [] then none
        else some (pyRound (([15] : List ℚ).sum /
          ((([15] : List ℚ).length : ℕ) : ℚ)) 6))
      (if ([10] : List ℚ) ≠ [] ∧ ([15] : List ℚ) ≠ [] ∧
          ([10] : List ℚ).sum / ((([10] : List ℚ).length : ℕ) : ℚ) ≠ 0 then
        some (pyRound ((([15] : List ℚ).sum /
          ((([15] : List ℚ).length : ℕ) : ℚ) -
          ([10] : List ℚ).sum / ((([10] : List ℚ).length : ℕ) : ℚ)) /
          (([10] : List ℚ).sum / ((([10] : List ℚ).length : ℕ) : ℚ)) * 100) 2)
      else none)) ∈
      (Stats.summary
        { Stats.init with prom_series := [("m", ([10], [15]))] }).prom :=
  (claim_C4.1 { Stats.init with prom_series := [("m", ([10], [15]))] }
    ).2.2.2.2.2.2.2.2.1 "m" [10] [15] (List.mem_singleton.mpr rfl)

end ChaosAgent
